import Mathlib

/-!
Verification of the retail-ops-intelligence ingestion pipeline.

Shallow embedding of `src/ingestion/contracts.py`, `src/ingestion/pipeline.py`
and `src/ingestion/storage.py`.

Modelling conventions:
* A pandas cell is a `Cell`: a numeric value, a missing value (NaN), a string
  that parses as a number, or a non-numeric string.
* A DataFrame is an ordered association list from column name to the column's
  cell list (pandas columns are unique, so lookups take the first match).
* pandas comparison semantics are embedded: `NaN < 0`, `NaN >= 0` and
  `NaN.between(0, 1)` are all `false`; comparing a string-typed column against
  a number raises `TypeError`, modelled with `Except` (the exception text is
  abstracted to a fixed string, since only control flow depends on it).
* Filesystem effects (makedirs, move, copy, write) are modelled by an
  environment recording which primitive fails; timestamps are parameters.
-/

set_option maxHeartbeats 1000000

/-- A scalar value held in one pandas cell, as produced by `pd.read_csv`. -/
inductive Cell where
  | num (q : ℚ)
  | nan
  | textNum (q : ℚ)
  | textOther (s : String)
deriving DecidableEq, Repr

/-- A pandas DataFrame: ordered columns, each a name with its cell list. -/
structure DataFrame where
  cols : List (String × List Cell)
deriving DecidableEq, Repr

/-- The column names of a DataFrame (`df.columns`). -/
def colNames (df : DataFrame) : List String :=
  df.cols.map Prod.fst

/-- The cells of a named column (`df[c]`); `[]` when the column is absent. -/
def colCells (df : DataFrame) (c : String) : List Cell :=
  (((df.cols.find? (fun p => p.1 = c)).map Prod.snd)).getD []

/-- Replace the first column named `c` with cells `v`, appending a new column
when `c` is absent (`df[c] = v`). -/
def setColList : List (String × List Cell) → String → List Cell → List (String × List Cell)
  | [], c, v => [(c, v)]
  | (n, cells) :: rest, c, v =>
    if n = c then (c, v) :: rest else (n, cells) :: setColList rest c v

/-- `df[c] = v` on the DataFrame wrapper. -/
def setCol (df : DataFrame) (c : String) (v : List Cell) : DataFrame :=
  ⟨setColList df.cols c v⟩

/-- `len(df)`: the row count, read off the first column. -/
def DataFrame.nrows (df : DataFrame) : Nat :=
  match df.cols with
  | [] => 0
  | (_, cells) :: _ => cells.length

/-- True on cells of a string-typed (object dtype) entry: comparing such a
column against a number raises `TypeError` in pandas. -/
def isTextCell : Cell → Bool
  | .textNum _ => true
  | .textOther _ => true
  | _ => false

/-- `x.between(0, 1)` and the contract lambda `(x >= 0) & (x <= 1)`:
true exactly on numeric values inside `[0, 1]`; `NaN` compares false. -/
def between01 : Cell → Bool
  | .num q => decide (0 ≤ q ∧ q ≤ 1)
  | _ => false

/-- The contract lambda `x >= 0`: `NaN` compares false. -/
def geZero : Cell → Bool
  | .num q => decide (0 ≤ q)
  | _ => false

/-- `x < 0` on one cell: `NaN < 0` is false. -/
def cellNeg : Cell → Bool
  | .num q => decide (q < 0)
  | _ => false

/-- `len(df[mask(df[column])])`: raises when the column is string-typed,
otherwise counts the cells where the boolean mask is true. -/
def seriesCount (mask : Cell → Bool) (cells : List Cell) : Except String Nat :=
  if cells.any isTextCell then
    .error "unorderable types: str() and int()"
  else
    .ok (cells.countP mask)

/-- `len(df[~rule(df[column])])`: the rows violating a business rule. -/
def seriesViolations (pred : Cell → Bool) (cells : List Cell) : Except String Nat :=
  seriesCount (fun c => ! pred c) cells

/-- Python `repr` of one string: wrapped in single quotes. -/
def pyStrRepr (s : String) : String :=
  "\x27" ++ s ++ "\x27"

/-- Python `repr` of a list of strings, as interpolated by an f-string. -/
def pyListRepr (l : List String) : String :=
  "[" ++ String.intercalate ", " (l.map pyStrRepr) ++ "]"

/-! ## `src/ingestion/contracts.py` — DataContract -/

/-- `DataContract.SCHEMAS[data_type]['required_columns']`, with the
`SCHEMAS.get(data_type, {})` default of no required columns. -/
def requiredColumns (data_type : String) : List String :=
  if data_type = "promotions" then
    ["promotion_id", "store_id", "start_date", "end_date",
     "discount_pct", "promotion_type"]
  else if data_type = "sales" then
    ["date", "store_id", "total_sales"]
  else if data_type = "inventory" then
    ["date", "store_id"]
  else if data_type = "stores" then
    ["store_id", "store_name", "region"]
  else
    []

/-- `DataContract.SCHEMAS[data_type]['business_rules']`: column names paired
with their rule, evaluated over a whole column. -/
def businessRules (data_type : String) : List (String × (List Cell → Except String Nat)) :=
  if data_type = "promotions" then
    [("discount_pct", seriesViolations between01)]
  else if data_type = "sales" then
    [("total_sales", seriesViolations geZero)]
  else
    []

/-- The dedicated schema-drift message of `DataContract.validate`. -/
def registryDriftMsg : String :=
  "SCHEMA DRIFT DETECTED: discount_pct column missing. " ++
  "Pipeline stopped to protect data trust. " ++
  "Contact upstream team to resolve column name change."

/-- The missing-column errors of `DataContract.validate` (step 1). -/
def contractMissingErrors (data_type : String) (df : DataFrame) : List String :=
  let required := requiredColumns data_type
  let missing := required.filter (fun c => c ∉ colNames df)
  if missing.isEmpty then []
  else
    ["Missing required columns: " ++ pyListRepr missing] ++
      (if data_type = "promotions" ∧ "discount_pct" ∈ missing then
        [registryDriftMsg]
      else [])

/-- The business-rule errors of `DataContract.validate` (step 2); a rule whose
evaluation raises is caught and reported as a rule-evaluation error. -/
def contractRuleErrors (data_type : String) (df : DataFrame) : List String :=
  (businessRules data_type).foldr
    (fun p acc =>
      (if p.1 ∈ colNames df then
        match p.2 (colCells df p.1) with
        | .ok n =>
          if n > 0 then
            ["Business rule violation in " ++ p.1 ++ ": " ++
              toString n ++ " records failed"]
          else []
        | .error e => ["Error checking rule for " ++ p.1 ++ ": " ++ e]
      else []) ++ acc)
    []

/-- `DataContract(data_type).validate(df)`. -/
def DataContract.validate (data_type : String) (df : DataFrame) : Bool × List String :=
  let errors := contractMissingErrors data_type df ++ contractRuleErrors data_type df
  (errors.isEmpty, errors)

/-! ## `src/ingestion/pipeline.py` — domain validators -/

/-- `pd.to_numeric(x, errors='coerce')` on one cell: numbers stay, numeric
strings parse, everything non-numeric becomes `NaN`. -/
def toNumericCell : Cell → Cell
  | .num q => .num q
  | .nan => .nan
  | .textNum q => .num q
  | .textOther _ => .nan

/-- The pipeline validator's schema-drift message (`validate_promotions`). -/
def pipelineDriftMsg : String :=
  "SCHEMA DRIFT: Expected \x27discount_pct\x27 column not found"

/-- The count-based out-of-range message of `validate_promotions`. -/
def invalidDiscountMsg (n : Nat) : String :=
  "Found " ++ toString n ++ " invalid discount values (not between 0-1)"

/-- `validate_promotions(df)`. The source mutates `df` in place when it
coerces `discount_pct`, so the model returns the updated DataFrame alongside
`(is_valid, errors)`. Neither `pd.to_numeric(..., errors='coerce')` nor
`Series.between` can raise on scalar cells, so the source's try/except around
them has no error branch here. -/
def validate_promotions (df : DataFrame) : (Bool × List String) × DataFrame :=
  if "discount_pct" ∈ colNames df then
    let coerced := (colCells df "discount_pct").map toNumericCell
    let df2 := setCol df "discount_pct" coerced
    let invalid := coerced.countP (fun c => ! between01 c)
    let errors := if invalid > 0 then [invalidDiscountMsg invalid] else []
    ((errors.isEmpty, errors), df2)
  else
    ((false, [pipelineDriftMsg]), df)

/-- The count-based negative-sales message of `validate_sales`. -/
def negSalesMsg (n : Nat) : String :=
  "Found " ++ toString n ++ " records with negative sales"

/-- The count-based negative-transaction message of `validate_sales`. -/
def negTxnMsg (n : Nat) : String :=
  "Found " ++ toString n ++ " records with negative transaction count"

/-- `validate_sales(df)`. The comparisons `df['total_sales'] < 0` and
`df['transaction_count'] < 0` raise on a string-typed column and
`validate_sales` has no try/except, so the raise propagates (`Except.error`);
the caller `process_file` catches it. -/
def validate_sales (df : DataFrame) : Except String (Bool × List String) := do
  let errs1 ←
    if "total_sales" ∈ colNames df then
      (seriesCount cellNeg (colCells df "total_sales")).map
        (fun n => if n > 0 then [negSalesMsg n] else [])
    else pure []
  let errs2 ←
    if "transaction_count" ∈ colNames df then
      (seriesCount cellNeg (colCells df "transaction_count")).map
        (fun n => if n > 0 then [negTxnMsg n] else [])
    else pure []
  let errors := errs1 ++ errs2
  return (errors.isEmpty, errors)

/-! ## `src/ingestion/pipeline.py` — quarantine_file -/

/-- Which filesystem primitives fail during the run; all-false is the healthy
filesystem. -/
structure FsEnv where
  makedirsFails : Bool
  moveFails : Bool
  writeFails : Bool
deriving DecidableEq, Repr

/-- `os.path.basename`: the part after the last path separator. -/
def basenameChars : List Char → List Char → List Char
  | [], acc => acc.reverse
  | c :: rest, acc =>
    if c = '/' then basenameChars rest [] else basenameChars rest (c :: acc)

/-- `os.path.basename`. -/
def basename (p : String) : String :=
  ⟨basenameChars p.data []⟩

/-- The sidecar document `quarantine_file` writes beside the relocated file. -/
structure QuarantineRecord where
  original_path : String
  quarantine_path : String
  timestamp : String
  errors : List String
deriving DecidableEq, Repr

/-- `data/quarantine/<timestamp>_<basename>`. -/
def quarantinePathFor (filepath ts : String) : String :=
  "data/quarantine/" ++ ts ++ "_" ++ basename filepath

/-- The try-block of `quarantine_file`: makedirs, move, then the sidecar
write; the first failing primitive raises. -/
def quarantineAttempt (env : FsEnv) (filepath : String) (errors : List String)
    (ts : String) : Except String (String × QuarantineRecord) := do
  if env.makedirsFails then throw "makedirs failed"
  let qpath := quarantinePathFor filepath ts
  if env.moveFails then throw "move failed"
  if env.writeFails then throw "write of error log failed"
  return (qpath, ⟨filepath, qpath, ts, errors⟩)

/-- `quarantine_file(filepath, errors)`: any exception in the try-block is
caught, logged, and the original path returned; on success the quarantine
path and the written sidecar are returned. Total by construction — the model
of "never raises". -/
def quarantine_file (env : FsEnv) (filepath : String) (errors : List String)
    (ts : String) : String × Option QuarantineRecord :=
  match quarantineAttempt env filepath errors ts with
  | .ok (qpath, rcd) => (qpath, some rcd)
  | .error _ => (filepath, none)

/-! ## `src/ingestion/pipeline.py` — process_file and run_pipeline -/

/-- The two values `datetime.now()` is formatted to inside `process_file`:
the ISO timestamp stamped as `_ingested_at` and the `%Y%m%d_%H%M%S` string
used as `_batch_id` and in quarantine paths. -/
structure Stamp where
  ingested_at : String
  batch_id : String
deriving DecidableEq, Repr

/-- The metadata stamping of `process_file`:
`df['_ingested_at'] = ...; df['_batch_id'] = ...` broadcasts each scalar over
the row count. -/
def stampMeta (df : DataFrame) (ts : Stamp) : DataFrame :=
  let n := df.nrows
  setCol (setCol df "_ingested_at" (List.replicate n (Cell.textOther ts.ingested_at)))
    "_batch_id" (List.replicate n (Cell.textOther ts.batch_id))

/-- One of `{success, failed, error, skipped}`. -/
inductive PStatus where
  | success
  | failed
  | error
  | skipped
deriving DecidableEq, Repr

/-- The result dictionary `process_file` / `run_pipeline` build for one file:
status plus the keys present for that status. -/
structure ProcessingResult where
  status : PStatus
  reason : Option String
  errors : List String
  records : Option Nat
  validated_path : Option String
  quarantine_path : Option String
deriving DecidableEq, Repr

/-- What `pd.read_csv(filepath)` does for one configured file: the file is
absent, the read raises, or a DataFrame is loaded. -/
inductive LoadOutcome where
  | missing
  | loadError (msg : String)
  | loaded (df : DataFrame)

/-- `process_file(filepath, data_type)` given the outcome of the load. A load
exception (absent file at read time, or a parse failure) is caught, the file
quarantined with the exception text, and `error` reported. Otherwise the
type-appropriate validator runs — only promotions and sales have one; every
other type is accepted with `is_valid, errors = True, []`. A validator raise
is caught by the same outer try. On success the stamped DataFrame that was
written to the validated copy is also returned. -/
def process_file (env : FsEnv) (load : LoadOutcome) (filepath : String)
    (data_type : String) (ts : Stamp) : ProcessingResult × Option DataFrame :=
  match load with
  | .missing =>
    let e := "FileNotFoundError: " ++ filepath
    let q := quarantine_file env filepath [e] ts.batch_id
    (⟨.error, some e, [], none, none, some q.1⟩, none)
  | .loadError e =>
    let q := quarantine_file env filepath [e] ts.batch_id
    (⟨.error, some e, [], none, none, some q.1⟩, none)
  | .loaded df =>
    let vres : Except String ((Bool × List String) × DataFrame) :=
      if data_type = "promotions" then .ok (validate_promotions df)
      else if data_type = "sales" then (validate_sales df).map (fun r => (r, df))
      else .ok ((true, []), df)
    match vres with
    | .error e =>
      let q := quarantine_file env filepath [e] ts.batch_id
      (⟨.error, some e, [], none, none, some q.1⟩, none)
    | .ok (vr, df2) =>
      if vr.1 then
        let out := stampMeta df2 ts
        (⟨.success, none, [], some out.nrows,
          some (filepath.replace ".csv" "_validated.csv"), none⟩, some out)
      else
        let q := quarantine_file env filepath vr.2 ts.batch_id
        (⟨.failed, some "validation_failed", vr.2, none, none, some q.1⟩, none)

/-- The fixed ordered work list of `run_pipeline`. -/
def files_to_process : List (String × String) :=
  [("stores.csv", "stores"),
   ("daily_sales.csv", "sales"),
   ("inventory_snapshots.csv", "inventory"),
   ("promotions.csv", "promotions")]

/-- The run summary (`timestamp` and `duration_seconds` are wall-clock values
outside the embedding). -/
structure PipelineSummary where
  files_processed : Nat
  records_processed : Nat
  results : List (String × ProcessingResult)
deriving Repr

/-- The loop body of `run_pipeline`: builds the results map in work-list
order and accumulates `total_records` from `success` results only; a file
absent from the data directory is recorded as `skipped` without invoking
`process_file`. -/
def runFiles (env : FsEnv) (dataDir : String) (data : String → LoadOutcome)
    (ts : Stamp) : List (String × String) → List (String × ProcessingResult) × Nat
  | [] => ([], 0)
  | (fn, ty) :: rest =>
    let r : ProcessingResult :=
      match data fn with
      | .missing => ⟨.skipped, some "file_not_found", [], none, none, none⟩
      | outcome => (process_file env outcome (dataDir ++ "/" ++ fn) ty ts).1
    let acc := runFiles env dataDir data ts rest
    ((fn, r) :: acc.1,
      (if r.status = .success then r.records.getD 0 else 0) + acc.2)

/-- `run_pipeline(data_dir)`: drives the fixed file list and assembles the
summary, computing `files_processed` as the count of `success` results and
`records_processed` as the accumulated total. -/
def run_pipeline (env : FsEnv) (dataDir : String) (data : String → LoadOutcome)
    (ts : Stamp) : PipelineSummary :=
  let acc := runFiles env dataDir data ts files_to_process
  ⟨(acc.1.filter (fun p => p.2.status = PStatus.success)).length, acc.2, acc.1⟩

/-! ## `src/ingestion/storage.py` — SimpleStorage.backup_file -/

/-- Which filesystem primitives fail during one `backup_file` call. -/
structure BackupEnv where
  makedirsFails : Bool
  copyFails : Bool
deriving DecidableEq, Repr

/-- `SimpleStorage.backup_file(filepath, backup_dir)`. In the source,
`os.makedirs(backup_dir, exist_ok=True)` sits OUTSIDE the try-block, so its
exception propagates to the caller (`Except.error`); only `shutil.copy2` is
guarded, returning `None` on failure (a missing source file raises inside
`copy2` and lands here too). -/
def backup_file (env : BackupEnv) (filepath backup_dir ts : String) :
    Except String (Option String) := do
  if env.makedirsFails then throw "makedirs failed"
  let backup_path := backup_dir ++ "/" ++ ts ++ "_" ++ basename filepath
  if env.copyFails then
    return none
  return some backup_path


/-! ## Concrete fixtures used by the claim theorems -/

/-- The empty filesystem-failure environment: every primitive succeeds. -/
def envOk : FsEnv := ⟨false, false, false⟩

/-- A stores dataset missing the required `store_id` column. -/
def storesNoIdDf : DataFrame :=
  ⟨[("store_name", [Cell.textOther "Downtown"]),
    ("region", [Cell.textOther "North"])]⟩

/-- Scenario A input: a promotions dataset whose column is
`discount_percent` instead of `discount_pct`. -/
def scenarioADf : DataFrame :=
  ⟨[("promotion_id", [Cell.num 1]), ("store_id", [Cell.num 2]),
    ("start_date", [Cell.textOther "2024-01-01"]),
    ("end_date", [Cell.textOther "2024-02-01"]),
    ("discount_percent", [Cell.num (3/10)]),
    ("promotion_type", [Cell.textOther "BOGO"])]⟩

/-- The sum of the record counts of the `success` entries of a results list. -/
def sumSuccessRecords (rs : List (String × ProcessingResult)) : Nat :=
  ((rs.filter (fun p => p.2.status = PStatus.success)).map
    (fun p => p.2.records.getD 0)).sum

/-! ## Basic lemmas about the DataFrame model -/
lemma find?_setColList_same (l : List (String × List Cell)) (c : String) (v : List Cell) :
    (setColList l c v).find? (fun p => p.1 = c) = some (c, v) := by
  induction l with
  | nil => simp [setColList]
  | cons hd tl ih =>
    obtain ⟨n, cells⟩ := hd
    by_cases h : n = c
    · simp [setColList, h]
    · simp [setColList, h, List.find?, ih]

lemma find?_setColList_other (l : List (String × List Cell)) (c c' : String) (v : List Cell)
    (h : c' ≠ c) :
    (setColList l c v).find? (fun p => p.1 = c') = l.find? (fun p => p.1 = c') := by
  induction l with
  | nil => simp [setColList, List.find?, Ne.symm h]
  | cons hd tl ih =>
    obtain ⟨n, cells⟩ := hd
    by_cases hn : n = c
    · subst hn
      simp [setColList, List.find?, Ne.symm h]
    · by_cases hn' : n = c'
      · subst hn'
        simp [setColList, hn, List.find?]
      · simp [setColList, hn, List.find?, hn', ih]

lemma colCells_setCol_same (df : DataFrame) (c : String) (v : List Cell) :
    colCells (setCol df c v) c = v := by
  simp [colCells, setCol, find?_setColList_same]

lemma colCells_setCol_other (df : DataFrame) (c c' : String) (v : List Cell) (h : c' ≠ c) :
    colCells (setCol df c v) c' = colCells df c' := by
  simp [colCells, setCol, find?_setColList_other _ _ _ _ h]

lemma map_fst_setColList (l : List (String × List Cell)) (c : String) (v : List Cell) :
    (setColList l c v).map Prod.fst =
      if c ∈ l.map Prod.fst then l.map Prod.fst else l.map Prod.fst ++ [c] := by
  induction l with
  | nil => simp [setColList]
  | cons hd tl ih =>
    obtain ⟨n, cells⟩ := hd
    by_cases h : n = c
    · simp [setColList, h]
    · simp only [setColList, if_neg h, List.map_cons, ih]
      by_cases hm : c ∈ tl.map Prod.fst
      · simp [hm, Ne.symm h]
      · simp [hm, Ne.symm h]

lemma mem_colNames_setCol (df : DataFrame) (c c' : String) (v : List Cell) :
    c' ∈ colNames (setCol df c v) ↔ c' = c ∨ c' ∈ colNames df := by
  simp only [colNames, setCol, map_fst_setColList]
  split <;> rename_i h
  · constructor
    · exact fun hm => Or.inr hm
    · rintro (rfl | hm)
      · exact h
      · exact hm
  · simp only [List.mem_append, List.mem_singleton]
    tauto

lemma setColList_lookup_self (l : List (String × List Cell)) (c : String)
    (h : c ∈ l.map Prod.fst) :
    setColList l c (((l.find? (fun p => p.1 = c)).map Prod.snd).getD []) = l := by
  induction l with
  | nil => simp at h
  | cons hd tl ih =>
    obtain ⟨n, cells⟩ := hd
    by_cases hn : n = c
    · subst hn
      simp [setColList, List.find?]
    · have hm : c ∈ tl.map Prod.fst := by
        simp at h
        rcases h with h | h
        · exact absurd h.symm hn
        · simpa using h
      simp [setColList, hn, List.find?, Ne.symm hn, ih hm]

lemma setCol_self (df : DataFrame) (c : String) (h : c ∈ colNames df) :
    setCol df c (colCells df c) = df := by
  obtain ⟨l⟩ := df
  simp [setCol, colCells, setColList_lookup_self l c h]

lemma colNames_setCol_of_mem (df : DataFrame) (c : String) (v : List Cell)
    (h : c ∈ colNames df) :
    colNames (setCol df c v) = colNames df := by
  simp [colNames, setCol, map_fst_setColList, colNames] at h ⊢
  simp [h]

lemma toNumericCell_idem (c : Cell) : toNumericCell (toNumericCell c) = toNumericCell c := by
  cases c <;> rfl

lemma colCells_stampMeta_other (df : DataFrame) (ts : Stamp) (c : String)
    (h1 : c ≠ "_ingested_at") (h2 : c ≠ "_batch_id") :
    colCells (stampMeta df ts) c = colCells df c := by
  simp [stampMeta, colCells_setCol_other _ _ _ _ h2, colCells_setCol_other _ _ _ _ h1]

lemma mem_colNames_stampMeta (df : DataFrame) (ts : Stamp) (c : String) :
    c ∈ colNames (stampMeta df ts) ↔
      c = "_batch_id" ∨ c = "_ingested_at" ∨ c ∈ colNames df := by
  simp [stampMeta, mem_colNames_setCol]

lemma ingested_mem_stampMeta (df : DataFrame) (ts : Stamp) :
    "_ingested_at" ∈ colNames (stampMeta df ts) := by
  simp [mem_colNames_stampMeta]

lemma batch_mem_stampMeta (df : DataFrame) (ts : Stamp) :
    "_batch_id" ∈ colNames (stampMeta df ts) := by
  simp [mem_colNames_stampMeta]

lemma colNames_stampMeta_of_mem (df : DataFrame) (ts : Stamp)
    (h1 : "_ingested_at" ∈ colNames df) (h2 : "_batch_id" ∈ colNames df) :
    colNames (stampMeta df ts) = colNames df := by
  have h2' : "_batch_id" ∈ colNames (setCol df "_ingested_at"
      (List.replicate df.nrows (Cell.textOther ts.ingested_at))) := by
    simp [mem_colNames_setCol, h2]
  simp [stampMeta, colNames_setCol_of_mem _ _ _ h2', colNames_setCol_of_mem _ _ _ h1]

/-! ## Claim theorems -/

/-- C7: quarantine_file never raises; when any step of the quarantine
operation fails the original filepath is returned unchanged (and no sidecar
exists), otherwise the quarantine path is returned together with the sidecar
error document. Totality of the model is the no-raise property. -/
theorem quarantine_best_effort (env : FsEnv) (fp : String) (errs : List String)
    (ts : String) :
    quarantine_file env fp errs ts =
      if env.makedirsFails || env.moveFails || env.writeFails then
        (fp, none)
      else
        (quarantinePathFor fp ts,
          some ⟨fp, quarantinePathFor fp ts, ts, errs⟩) := by
  cases hm : env.makedirsFails <;> cases hv : env.moveFails <;>
    cases hw : env.writeFails <;>
      simp [quarantine_file, quarantineAttempt, hm, hv, hw, throw, throwThe,
        MonadExceptOf.throw, pure, Except.pure, Bind.bind, Except.bind]

/-- C8 counterexample: when the backup directory cannot be created,
`backup_file` raises (`os.makedirs` is outside the try-block), so it is not
the case that it never raises regardless of filesystem state. -/
theorem backup_file_raises_on_makedirs :
    backup_file ⟨true, false⟩ "data/stores.csv" "backups" "20240101_000000" =
      Except.error "makedirs failed" := rfl

/-- C8 amended: provided the backup-directory creation succeeds,
`backup_file` never raises: it returns the backup path, or `None` when the
copy fails (including a missing source file). -/
theorem backup_file_no_raise (env : BackupEnv) (fp dir ts : String)
    (h : env.makedirsFails = false) :
    backup_file env fp dir ts =
      Except.ok (if env.copyFails then none
        else some (dir ++ "/" ++ ts ++ "_" ++ basename fp)) := by
  cases hc : env.copyFails <;>
    simp [backup_file, h, hc, pure, Except.pure, Bind.bind, Except.bind]

/-- C8 witness. -/
theorem backup_file_no_raise_witness :
    backup_file ⟨false, true⟩ "data/stores.csv" "backups" "20240101_000000" =
      Except.ok none :=
  backup_file_no_raise ⟨false, true⟩ "data/stores.csv" "backups"
    "20240101_000000" rfl

/-- C10: an unknown data_type yields a contract with an empty schema, whose
validate accepts every dataset with `(true, [])`. -/
theorem unknown_type_accepted (ty : String)
    (h : ty ∉ ["stores", "sales", "inventory", "promotions"]) (df : DataFrame) :
    requiredColumns ty = [] ∧ businessRules ty = [] ∧
    DataContract.validate ty df = (true, []) := by
  simp only [List.mem_cons, List.not_mem_nil, or_false, not_or] at h
  obtain ⟨h1, h2, h3, h4⟩ := h
  refine ⟨?_, ?_, ?_⟩
  · simp [requiredColumns, h1, h2, h3, h4]
  · simp [businessRules, h2, h4]
  · simp [DataContract.validate, contractMissingErrors, contractRuleErrors,
      requiredColumns, businessRules, h1, h2, h3, h4]

/-- C10 witness. -/
theorem unknown_type_accepted_witness :
    requiredColumns "weather" = [] ∧ businessRules "weather" = [] ∧
    DataContract.validate "weather" ⟨[("temp", [Cell.num 3])]⟩ = (true, []) :=
  unknown_type_accepted "weather" (by decide) ⟨[("temp", [Cell.num 3])]⟩

/-- C2 counterexample: a loaded stores dataset missing its required
`store_id` column is reported as `success`, not `failed` — `process_file`
never consults any validator for the stores (or inventory) type. -/
theorem stores_missing_column_succeeds :
    "store_id" ∈ requiredColumns "stores" ∧
    "store_id" ∉ colNames storesNoIdDf ∧
    (process_file envOk (.loaded storesNoIdDf) "data/stores.csv" "stores"
        ⟨"2024-01-01T00:00:00", "20240101_000000"⟩).1.status = PStatus.success ∧
    PStatus.success ≠ PStatus.failed := by
  refine ⟨by decide, by decide, rfl, by decide⟩

/-- C2 amended: `process_file` dispatches a validator only for the promotions
and sales types; a loaded stores or inventory dataset is accepted unvalidated
— whatever its columns, the result is `success` with no errors. -/
theorem stores_inventory_unvalidated (env : FsEnv) (fp : String)
    (df : DataFrame) (ts : Stamp) :
    (process_file env (.loaded df) fp "stores" ts).1.status = PStatus.success ∧
    (process_file env (.loaded df) fp "stores" ts).1.errors = [] ∧
    (process_file env (.loaded df) fp "inventory" ts).1.status = PStatus.success ∧
    (process_file env (.loaded df) fp "inventory" ts).1.errors = [] := by
  refine ⟨?_, ?_, ?_, ?_⟩ <;> rfl

lemma runFiles_records_eq (env : FsEnv) (dataDir : String)
    (data : String → LoadOutcome) (ts : Stamp) (fs : List (String × String)) :
    (runFiles env dataDir data ts fs).2 =
      sumSuccessRecords (runFiles env dataDir data ts fs).1 := by
  induction fs with
  | nil => simp [runFiles, sumSuccessRecords]
  | cons hd tl ih =>
    obtain ⟨fn, ty⟩ := hd
    simp only [runFiles, sumSuccessRecords] at ih ⊢
    by_cases hs :
        (match data fn with
          | .missing =>
            (⟨.skipped, some "file_not_found", [], none, none, none⟩ : ProcessingResult)
          | outcome => (process_file env outcome (dataDir ++ "/" ++ fn) ty ts).1).status
          = PStatus.success
    · simp [hs, List.filter_cons, ih]
    · simp [hs, List.filter_cons, ih]

/-- C5: in every produced summary, `files_processed` equals the number of
`success` results and `records_processed` equals the sum of exactly those
results' record counts (skipped, failed and error entries contribute
nothing). -/
theorem summary_invariant (env : FsEnv) (dataDir : String)
    (data : String → LoadOutcome) (ts : Stamp) :
    (run_pipeline env dataDir data ts).files_processed =
      ((run_pipeline env dataDir data ts).results.filter
        (fun p => p.2.status = PStatus.success)).length ∧
    (run_pipeline env dataDir data ts).records_processed =
      sumSuccessRecords (run_pipeline env dataDir data ts).results := by
  refine ⟨rfl, ?_⟩
  simp [run_pipeline, runFiles_records_eq]

/-- C1 counterexample: on Scenario A the pipeline's promotions validator does
fail with `{failed, validation_failed}`, but its sole error message is
`SCHEMA DRIFT: Expected 'discount_pct' column not found` — it does not begin
with `SCHEMA DRIFT DETECTED` (first 21 characters differ) and is not
identical to the Registry's dedicated message. -/
theorem scenarioA_message_mismatch :
    (process_file envOk (.loaded scenarioADf) "data/promotions.csv" "promotions"
        ⟨"2024-01-01T00:00:00", "20240101_000000"⟩).1 =
      ⟨PStatus.failed, some "validation_failed", [pipelineDriftMsg], none, none,
        some "data/quarantine/20240101_000000_promotions.csv"⟩ ∧
    pipelineDriftMsg.data.take 21 ≠ "SCHEMA DRIFT DETECTED".data ∧
    pipelineDriftMsg ≠ registryDriftMsg := by
  refine ⟨rfl, by decide, by decide⟩

/-- C1 amended: for every promotions dataset lacking `discount_pct`, the
pipeline's `validate_promotions` (the validator `process_file` invokes)
yields `{failed, validation_failed}` whose errors list is exactly the
dedicated pipeline message beginning `SCHEMA DRIFT` — a message distinct
from the Registry's, which alone begins `SCHEMA DRIFT DETECTED`. -/
theorem promotions_drift_pipeline (env : FsEnv) (fp : String) (df : DataFrame)
    (ts : Stamp) (h : "discount_pct" ∉ colNames df) :
    (process_file env (.loaded df) fp "promotions" ts).1 =
      ⟨PStatus.failed, some "validation_failed", [pipelineDriftMsg], none, none,
        some (quarantine_file env fp [pipelineDriftMsg] ts.batch_id).1⟩ ∧
    pipelineDriftMsg.data.take 12 = "SCHEMA DRIFT".data ∧
    pipelineDriftMsg.data.take 21 ≠ "SCHEMA DRIFT DETECTED".data ∧
    registryDriftMsg.data.take 21 = "SCHEMA DRIFT DETECTED".data ∧
    pipelineDriftMsg ≠ registryDriftMsg := by
  refine ⟨?_, by decide, by decide, by decide, by decide⟩
  simp [process_file, validate_promotions, h]

/-- C1 witness. -/
theorem promotions_drift_pipeline_witness :
    (process_file envOk (.loaded ⟨[("discount_percent", [Cell.num 1])]⟩)
        "data/promotions.csv" "promotions" ⟨"T", "B"⟩).1 =
      ⟨PStatus.failed, some "validation_failed", [pipelineDriftMsg], none, none,
        some (quarantine_file envOk "data/promotions.csv" [pipelineDriftMsg] "B").1⟩ :=
  (promotions_drift_pipeline envOk "data/promotions.csv"
    ⟨[("discount_percent", [Cell.num 1])]⟩ ⟨"T", "B"⟩ (by decide)).1

lemma missing_msg_ne_registry (s : String) :
    "Missing required columns: " ++ s ≠ registryDriftMsg := by
  intro h
  have h2 : ("Missing required columns: " ++ s).data = registryDriftMsg.data :=
    congrArg String.data h
  rw [String.data_append] at h2
  have h3 := congrArg (fun l => l.take 1) h2
  simp only at h3
  rw [List.take_append_of_le_length (by decide)] at h3
  exact absurd h3 (by decide)

lemma contract_errors_shape (ty : String) (df : DataFrame)
    (hne : ((requiredColumns ty).filter (fun c => c ∉ colNames df)).isEmpty = false) :
    (DataContract.validate ty df).2 =
      ("Missing required columns: " ++
          pyListRepr ((requiredColumns ty).filter (fun c => c ∉ colNames df))) ::
        ((if ty = "promotions" ∧
            "discount_pct" ∈ (requiredColumns ty).filter (fun c => c ∉ colNames df) then
          [registryDriftMsg]
        else []) ++ contractRuleErrors ty df) := by
  simp only [DataContract.validate, contractMissingErrors, hne, Bool.false_eq_true,
    if_false, List.cons_append, List.append_assoc, List.nil_append]

/-- C3: whenever any required column of a type's contract is missing, the
Registry's validate returns `is_valid = false` with one aggregate message
listing all missing columns; for promotions with `discount_pct` among them, a
second, distinct dedicated schema-drift message is additionally present. -/
theorem contract_missing_columns (ty : String) (df : DataFrame)
    (h : (requiredColumns ty).filter (fun c => c ∉ colNames df) ≠ []) :
    (DataContract.validate ty df).1 = false ∧
    ("Missing required columns: " ++
        pyListRepr ((requiredColumns ty).filter (fun c => c ∉ colNames df)))
      ∈ (DataContract.validate ty df).2 ∧
    (ty = "promotions" →
      "discount_pct" ∈ (requiredColumns ty).filter (fun c => c ∉ colNames df) →
      registryDriftMsg ∈ (DataContract.validate ty df).2 ∧
      registryDriftMsg ≠
        "Missing required columns: " ++
          pyListRepr ((requiredColumns ty).filter (fun c => c ∉ colNames df))) := by
  have hne : ((requiredColumns ty).filter (fun c => c ∉ colNames df)).isEmpty = false := by
    simpa [List.isEmpty_iff] using h
  have hshape := contract_errors_shape ty df hne
  refine ⟨?_, ?_, ?_⟩
  · have : (DataContract.validate ty df).1 = (DataContract.validate ty df).2.isEmpty := rfl
    rw [this, hshape]
    rfl
  · rw [hshape]
    exact List.mem_cons_self _ _
  · intro hp hdp
    refine ⟨?_, fun hc => missing_msg_ne_registry _ hc.symm⟩
    rw [hshape]
    refine List.mem_cons_of_mem _ (List.mem_append_left _ ?_)
    rw [if_pos ⟨hp, hdp⟩]
    exact List.mem_singleton.mpr rfl

/-- C3 witness. -/
theorem contract_missing_columns_witness :
    (DataContract.validate "promotions" scenarioADf).1 = false ∧
    ("Missing required columns: " ++ pyListRepr ["discount_pct"])
      ∈ (DataContract.validate "promotions" scenarioADf).2 ∧
    registryDriftMsg ∈ (DataContract.validate "promotions" scenarioADf).2 := by
  have hm : (requiredColumns "promotions").filter
      (fun c => c ∉ colNames scenarioADf) = ["discount_pct"] := by decide
  have h := contract_missing_columns "promotions" scenarioADf
    (by rw [hm]; exact List.cons_ne_nil _ _)
  refine ⟨h.1, ?_, (h.2.2 rfl (by rw [hm]; exact List.mem_singleton.mpr rfl)).1⟩
  have h2 := h.2.1
  rwa [hm] at h2

lemma not_between01_num (q : ℚ) :
    (! between01 (Cell.num q)) = true ↔ q < 0 ∨ 1 < q := by
  simp [between01]

/-- C4 counterexample: a promotions dataset whose single `discount_pct` value
is the non-numeric string `"abc"` — every value is missing after coercion —
still produces the count-based range-violation error: pandas `between`
treats `NaN` as out of range. -/
theorem coerced_nan_still_flagged :
    toNumericCell (Cell.textOther "abc") = Cell.nan ∧
    validate_promotions ⟨[("discount_pct", [Cell.textOther "abc"])]⟩ =
      ((false, [invalidDiscountMsg 1]), ⟨[("discount_pct", [Cell.nan])]⟩) :=
  ⟨rfl, rfl⟩

/-- C4 amended: with `discount_pct` present, `validate_promotions` coerces
the column to numeric (non-numeric values become missing, without any
coercion error) and emits one count-based message counting exactly the
coerced values that are missing or lie outside `[0, 1]`; only a column whose
coerced values are all numeric and within `[0, 1]` escapes the
range-violation error. -/
theorem promotions_range_flags (df : DataFrame)
    (h : "discount_pct" ∈ colNames df) :
    (validate_promotions df).2 =
      setCol df "discount_pct" ((colCells df "discount_pct").map toNumericCell) ∧
    (validate_promotions df).1.2 =
      (if 0 < ((colCells df "discount_pct").map toNumericCell).countP
            (fun c => ! between01 c) then
        [invalidDiscountMsg (((colCells df "discount_pct").map toNumericCell).countP
          (fun c => ! between01 c))]
      else []) ∧
    (∀ c : Cell, toNumericCell c = Cell.nan ∨ ∃ q, toNumericCell c = Cell.num q) ∧
    (∀ c ∈ (colCells df "discount_pct").map toNumericCell,
      (! between01 c) = true ↔
        (c = Cell.nan ∨ ∃ q, c = Cell.num q ∧ (q < 0 ∨ 1 < q))) := by
  refine ⟨?_, ?_, ?_, ?_⟩
  · simp [validate_promotions, h]
  · simp [validate_promotions, h]
  · intro c
    cases c <;> simp [toNumericCell]
  · intro c hc
    rcases List.mem_map.mp hc with ⟨c', _, rfl⟩
    cases c' <;>
      simp [toNumericCell, between01, not_between01_num]

/-- C4 witness. -/
theorem promotions_range_flags_witness :
    (validate_promotions ⟨[("discount_pct", [Cell.num 2, Cell.num 1])]⟩).1.2 =
      [invalidDiscountMsg 1] := by
  have h := (promotions_range_flags ⟨[("discount_pct", [Cell.num 2, Cell.num 1])]⟩
    (by decide)).2.1
  rw [h]
  rfl

/-- C6: for sales datasets whose checked columns are numeric, the validator's
negative-sales message carries a count exactly equal to the number of rows
with `total_sales < 0` (Scenario B included), and absence of `total_sales`
or `transaction_count` is not itself an error. -/
theorem sales_negative_count :
    (∀ df : DataFrame, "total_sales" ∈ colNames df →
      (colCells df "total_sales").any isTextCell = false →
      (colCells df "transaction_count").any isTextCell = false →
      ∃ errs2 : List String,
        validate_sales df =
          Except.ok
            ((((if 0 < (colCells df "total_sales").countP cellNeg then
                  [negSalesMsg ((colCells df "total_sales").countP cellNeg)]
                else []) ++ errs2).isEmpty,
              (if 0 < (colCells df "total_sales").countP cellNeg then
                [negSalesMsg ((colCells df "total_sales").countP cellNeg)]
              else []) ++ errs2))) ∧
    validate_sales ⟨[("total_sales", [Cell.num 1000, Cell.num (-500), Cell.num 2000])]⟩ =
      Except.ok (false, ["Found 1 records with negative sales"]) ∧
    (∀ df : DataFrame, "total_sales" ∉ colNames df →
      "transaction_count" ∉ colNames df →
      validate_sales df = Except.ok (true, [])) := by
  refine ⟨?_, rfl, ?_⟩
  · intro df hmem htext httext
    refine ⟨(if "transaction_count" ∈ colNames df then
        (if 0 < (colCells df "transaction_count").countP cellNeg then
          [negTxnMsg ((colCells df "transaction_count").countP cellNeg)]
        else [])
      else []), ?_⟩
    by_cases ht : "transaction_count" ∈ colNames df <;>
      simp [validate_sales, seriesCount, hmem, htext, httext, ht,
        Bind.bind, Except.bind, Except.map, pure, Except.pure]
  · intro df h1 h2
    simp [validate_sales, h1, h2, Bind.bind, Except.bind, pure, Except.pure]

/-- C6 witness. -/
theorem sales_negative_count_witness :
    ∃ errs2 : List String,
      validate_sales ⟨[("total_sales", [Cell.num 5, Cell.num (-1)])]⟩ =
        Except.ok (((if 0 < (colCells ⟨[("total_sales", [Cell.num 5, Cell.num (-1)])]⟩
                "total_sales").countP cellNeg then
              [negSalesMsg ((colCells ⟨[("total_sales", [Cell.num 5, Cell.num (-1)])]⟩
                "total_sales").countP cellNeg)]
            else []) ++ errs2).isEmpty,
          (if 0 < (colCells ⟨[("total_sales", [Cell.num 5, Cell.num (-1)])]⟩
              "total_sales").countP cellNeg then
            [negSalesMsg ((colCells ⟨[("total_sales", [Cell.num 5, Cell.num (-1)])]⟩
              "total_sales").countP cellNeg)]
          else []) ++ errs2) :=
  sales_negative_count.1 ⟨[("total_sales", [Cell.num 5, Cell.num (-1)])]⟩
    (by decide) (by decide) (by decide)

lemma validate_sales_stampMeta (df : DataFrame) (ts : Stamp) :
    validate_sales (stampMeta df ts) = validate_sales df := by
  have h1 : colCells (stampMeta df ts) "total_sales" = colCells df "total_sales" :=
    colCells_stampMeta_other df ts _ (by decide) (by decide)
  have h2 : colCells (stampMeta df ts) "transaction_count" =
      colCells df "transaction_count" :=
    colCells_stampMeta_other df ts _ (by decide) (by decide)
  have h3 : ("total_sales" ∈ colNames (stampMeta df ts)) ↔
      ("total_sales" ∈ colNames df) := by
    rw [mem_colNames_stampMeta]
    constructor
    · rintro (hx | hx | hx)
      · exact absurd hx (by decide)
      · exact absurd hx (by decide)
      · exact hx
    · exact fun hx => Or.inr (Or.inr hx)
  have h4 : ("transaction_count" ∈ colNames (stampMeta df ts)) ↔
      ("transaction_count" ∈ colNames df) := by
    rw [mem_colNames_stampMeta]
    constructor
    · rintro (hx | hx | hx)
      · exact absurd hx (by decide)
      · exact absurd hx (by decide)
      · exact hx
    · exact fun hx => Or.inr (Or.inr hx)
  unfold validate_sales
  simp only [h1, h2, h3, h4]

lemma validate_promotions_success (df : DataFrame)
    (h : (validate_promotions df).1.1 = true) :
    "discount_pct" ∈ colNames df ∧
    ((colCells df "discount_pct").map toNumericCell).countP
      (fun c => ! between01 c) = 0 ∧
    validate_promotions df =
      ((true, []),
        setCol df "discount_pct" ((colCells df "discount_pct").map toNumericCell)) := by
  by_cases hdp : "discount_pct" ∈ colNames df
  · have hforall : ∀ x ∈ colCells df "discount_pct",
        between01 (toNumericCell x) = true := by
      simpa [validate_promotions, hdp] using h
    have hcnt : ((colCells df "discount_pct").map toNumericCell).countP
        (fun c => ! between01 c) = 0 := by
      rw [List.countP_eq_zero]
      intro a ha
      rcases List.mem_map.mp ha with ⟨c', hc', rfl⟩
      simp [hforall c' hc']
    refine ⟨hdp, hcnt, ?_⟩
    simp [validate_promotions, hdp, hcnt]
  · exfalso
    simp [validate_promotions, hdp] at h

lemma validate_promotions_fixed (out : DataFrame)
    (hmem : "discount_pct" ∈ colNames out)
    (hfix : (colCells out "discount_pct").map toNumericCell =
      colCells out "discount_pct")
    (hcnt : (colCells out "discount_pct").countP (fun c => ! between01 c) = 0) :
    validate_promotions out = ((true, []), out) := by
  simp only [validate_promotions, hmem, if_true, reduceIte, hfix, hcnt,
    Nat.lt_irrefl, if_false]
  rw [setCol_self out _ hmem]
  simp

lemma validate_promotions_revalidate (df : DataFrame) (ts : Stamp)
    (h : (validate_promotions df).1.1 = true) :
    validate_promotions (stampMeta (validate_promotions df).2 ts) =
      ((true, []), stampMeta (validate_promotions df).2 ts) := by
  obtain ⟨hdp, hcnt, heq⟩ := validate_promotions_success df h
  have hout : (validate_promotions df).2 =
      setCol df "discount_pct" ((colCells df "discount_pct").map toNumericCell) := by
    rw [heq]
  rw [hout]
  have hcells : colCells (stampMeta (setCol df "discount_pct"
        ((colCells df "discount_pct").map toNumericCell)) ts) "discount_pct" =
      (colCells df "discount_pct").map toNumericCell := by
    rw [colCells_stampMeta_other _ _ _ (by decide) (by decide), colCells_setCol_same]
  apply validate_promotions_fixed
  · rw [mem_colNames_stampMeta]
    exact Or.inr (Or.inr ((mem_colNames_setCol _ _ _ _).mpr (Or.inl rfl)))
  · rw [hcells, List.map_map]
    exact List.map_congr_left (fun a _ => toNumericCell_idem a)
  · rw [hcells]
    exact hcnt

/-- C9: re-processing a successfully validated input once more succeeds and
produces a validated copy whose columns and row values are identical to the
first validated copy's, except for the two stamped metadata columns
`_ingested_at` and `_batch_id`. -/
theorem reprocessing_idempotent (env : FsEnv) (fp fp2 : String) (df : DataFrame)
    (ty : String) (ts1 ts2 : Stamp)
    (h : (process_file env (.loaded df) fp ty ts1).1.status = PStatus.success) :
    ∃ out1 out2,
      (process_file env (.loaded df) fp ty ts1).2 = some out1 ∧
      (process_file env (.loaded out1) fp2 ty ts2).1.status = PStatus.success ∧
      (process_file env (.loaded out1) fp2 ty ts2).2 = some out2 ∧
      colNames out2 = colNames out1 ∧
      ∀ c, c ≠ "_ingested_at" → c ≠ "_batch_id" →
        colCells out2 c = colCells out1 c := by
  by_cases hp : ty = "promotions"
  · subst hp
    rcases hval : validate_promotions df with ⟨⟨b, errs⟩, df2⟩
    cases b
    · exfalso
      simp [process_file, hval] at h
    · have hv1 : (validate_promotions df).1.1 = true := by rw [hval]
      have hre := validate_promotions_revalidate df ts1 hv1
      rw [hval] at hre
      refine ⟨stampMeta df2 ts1, stampMeta (stampMeta df2 ts1) ts2,
        ?_, ?_, ?_, ?_, ?_⟩
      · simp [process_file, hval]
      · simp [process_file, hre]
      · simp [process_file, hre]
      · exact colNames_stampMeta_of_mem _ _ (ingested_mem_stampMeta _ _)
          (batch_mem_stampMeta _ _)
      · exact fun c h1 h2 => colCells_stampMeta_other _ _ _ h1 h2
  · by_cases hs : ty = "sales"
    · subst hs
      rcases hvs : validate_sales df with e | ⟨b, errs⟩
      · exfalso
        simp [process_file, hvs, Except.map] at h
      · cases b
        · exfalso
          simp [process_file, hvs, Except.map] at h
        · have hre : validate_sales (stampMeta df ts1) = .ok (true, errs) := by
            rw [validate_sales_stampMeta, hvs]
          refine ⟨stampMeta df ts1, stampMeta (stampMeta df ts1) ts2,
            ?_, ?_, ?_, ?_, ?_⟩
          · simp [process_file, hvs, Except.map]
          · simp [process_file, hre, Except.map]
          · simp [process_file, hre, Except.map]
          · exact colNames_stampMeta_of_mem _ _ (ingested_mem_stampMeta _ _)
              (batch_mem_stampMeta _ _)
          · exact fun c h1 h2 => colCells_stampMeta_other _ _ _ h1 h2
    · refine ⟨stampMeta df ts1, stampMeta (stampMeta df ts1) ts2,
        ?_, ?_, ?_, ?_, ?_⟩
      · simp [process_file, hp, hs]
      · simp [process_file, hp, hs]
      · simp [process_file, hp, hs]
      · exact colNames_stampMeta_of_mem _ _ (ingested_mem_stampMeta _ _)
          (batch_mem_stampMeta _ _)
      · exact fun c h1 h2 => colCells_stampMeta_other _ _ _ h1 h2

/-- C9 witness. -/
theorem reprocessing_idempotent_witness :
    ∃ out1 out2,
      (process_file envOk (.loaded ⟨[("discount_pct", [Cell.num 0])]⟩)
          "data/promotions.csv" "promotions" ⟨"T1", "B1"⟩).2 = some out1 ∧
      (process_file envOk (.loaded out1) "data/promotions.csv" "promotions"
          ⟨"T2", "B2"⟩).1.status = PStatus.success ∧
      (process_file envOk (.loaded out1) "data/promotions.csv" "promotions"
          ⟨"T2", "B2"⟩).2 = some out2 ∧
      colNames out2 = colNames out1 ∧
      ∀ c, c ≠ "_ingested_at" → c ≠ "_batch_id" →
        colCells out2 c = colCells out1 c :=
  reprocessing_idempotent envOk "data/promotions.csv" "data/promotions.csv"
    ⟨[("discount_pct", [Cell.num 0])]⟩ "promotions" ⟨"T1", "B1"⟩ ⟨"T2", "B2"⟩ rfl
